import Mathlib

/-!
Shallow embedding of the AI-Deep-Research-Assistant core:
the research-session state machine (src/lib/utils.ts, class
ResearchSessionStateMachine), the API usage guard
(src/unnamed/part_003, class ApiUsageGuard) and the research
orchestrator (src/lib/email-service.ts, class ResearchOrchestrator).

Conventions of the embedding:
* JavaScript string/option truthiness (null/undefined and "" are falsy)
  is `truthyStr`.
* Machine timestamps that the code only ever sets (never branches on)
  are abstracted to `Option Unit`; calendar dates, which the usage guard
  branches on, are `SimpleDate` (year/month/day after `setHours(0,0,0,0)`).
* The persistent store is explicit: session persistence is a trace
  (the list of successive persisted session rows), the usage table is a
  list of rows.  A fallible store operation is modelled by an explicit
  early `Except.error` exit controlled by a `DbFailures` oracle, mirroring
  the `try/catch` blocks of the source.
* `prisma.researchSession`/`refinement` row shapes follow
  src/lib/types.ts; `createdAt`/`updatedAt` are omitted (never read by
  the modelled logic).
-/

/-- JS truthiness of a nullable string: `null`/`undefined` and `""` are falsy. -/
def truthyStr : Option String → Bool
  | none => false
  | some s => !(s == "")

inductive ResearchSessionStatus where
  | CREATED
  | AWAITING_REFINEMENTS
  | REFINEMENTS_IN_PROGRESS
  | REFINEMENTS_COMPLETE
  | RUNNING_RESEARCH
  | COMPLETED
  | FAILED
deriving DecidableEq

/-- One refinement row (src/lib/types.ts `RefinementData`); `answeredAt`
is abstracted to set/unset. -/
structure RefinementData where
  question : String
  answer : Option String
  questionIndex : Nat
  answeredAt : Option Unit
deriving DecidableEq

/-- Session row (src/lib/types.ts `ResearchSessionData` plus the `title`
column the orchestrator writes); timestamps abstracted to set/unset. -/
structure ResearchSessionData where
  id : String
  userId : String
  title : String
  initialPrompt : String
  refinedPrompt : Option String
  status : ResearchSessionStatus
  openaiResult : Option String
  geminiResult : Option String
  pdfUrl : Option String
  pdfGeneratedAt : Option Unit
  emailSentAt : Option Unit
  errorMessage : Option String
  refinements : List RefinementData
deriving DecidableEq

/-- src/lib/types.ts `StateTransition`; the source field names `from`/`to`
are Lean keywords, rendered `fromState`/`toState`. -/
structure StateTransition where
  fromState : ResearchSessionStatus
  toState : ResearchSessionStatus
  condition : ResearchSessionData → Bool

/-- The transition table of `ResearchSessionStateMachine` (src/lib/utils.ts
lines 21-76), in source order. -/
def transitions : List StateTransition :=
  [ { fromState := .CREATED, toState := .AWAITING_REFINEMENTS,
      condition := fun _ => true },
    { fromState := .AWAITING_REFINEMENTS, toState := .REFINEMENTS_IN_PROGRESS,
      condition := fun session => decide (0 < session.refinements.length) },
    { fromState := .REFINEMENTS_IN_PROGRESS, toState := .REFINEMENTS_COMPLETE,
      condition := fun session =>
        (session.refinements.filter (fun r => !(truthyStr r.answer))).length == 0
          && decide (0 < session.refinements.length) },
    { fromState := .REFINEMENTS_COMPLETE, toState := .RUNNING_RESEARCH,
      condition := fun session => truthyStr session.refinedPrompt },
    { fromState := .RUNNING_RESEARCH, toState := .COMPLETED,
      condition := fun session =>
        truthyStr session.openaiResult && truthyStr session.geminiResult },
    { fromState := .CREATED, toState := .FAILED, condition := fun _ => false },
    { fromState := .AWAITING_REFINEMENTS, toState := .FAILED, condition := fun _ => false },
    { fromState := .REFINEMENTS_IN_PROGRESS, toState := .FAILED, condition := fun _ => false },
    { fromState := .REFINEMENTS_COMPLETE, toState := .FAILED, condition := fun _ => false },
    { fromState := .RUNNING_RESEARCH, toState := .FAILED, condition := fun _ => false } ]

/-- `ResearchSessionStateMachine.canTransition` (src/lib/utils.ts lines 81-106). -/
def canTransition (fromState toState : ResearchSessionStatus)
    (session : ResearchSessionData) : Bool :=
  if fromState = toState then true
  else if toState = ResearchSessionStatus.FAILED then true
  else
    match transitions.find? (fun t => t.fromState == fromState && t.toState == toState) with
    | none => false
    | some t => t.condition session

/-- JavaScript `[...new Set(l)]`: remove duplicates keeping the first
occurrence of each element, preserving order. -/
def dedupKeepFirst {α : Type _} [DecidableEq α] (l : List α) : List α :=
  go l []
where
  go : List α → List α → List α
    | [], _ => []
    | x :: xs, seen => if x ∈ seen then go xs seen else x :: go xs (x :: seen)

/-- `ResearchSessionStateMachine.getNextStates` (src/lib/utils.ts lines 111-131). -/
def getNextStates (currentState : ResearchSessionStatus)
    (session : ResearchSessionData) : List ResearchSessionStatus :=
  let base :=
    [currentState] ++
      (((transitions.filter (fun t => t.fromState == currentState)).filter
          (fun t => t.condition session)).map (fun t => t.toState))
  let withFailed :=
    if currentState != ResearchSessionStatus.FAILED then
      base ++ [ResearchSessionStatus.FAILED]
    else base
  dedupKeepFirst withFailed

/-- `ResearchSessionStateMachine.getNextState` (src/lib/utils.ts lines 136-151). -/
def getNextState (session : ResearchSessionData) : Option ResearchSessionStatus :=
  let currentState := session.status
  let nextStates := getNextStates currentState session
  let progressionStates :=
    nextStates.filter (fun s => s != currentState && s != ResearchSessionStatus.FAILED)
  progressionStates.head?

theorem dedupKeepFirst_go_mem {α : Type _} [DecidableEq α] (l seen : List α) (x : α) :
    x ∈ dedupKeepFirst.go l seen ↔ x ∈ l ∧ x ∉ seen := by
  induction l generalizing seen with
  | nil => simp [dedupKeepFirst.go]
  | cons a as ih =>
    by_cases h : a ∈ seen
    · simp only [dedupKeepFirst.go, if_pos h, ih, List.mem_cons]
      constructor
      · rintro ⟨hm, hs⟩; exact ⟨Or.inr hm, hs⟩
      · rintro ⟨hm | hm, hs⟩
        · exact absurd (hm ▸ h) hs
        · exact ⟨hm, hs⟩
    · simp only [dedupKeepFirst.go, if_neg h, List.mem_cons, ih]
      constructor
      · rintro (rfl | ⟨hm, hs⟩)
        · exact ⟨Or.inl rfl, h⟩
        · exact ⟨Or.inr hm, fun hx => hs (Or.inr hx)⟩
      · rintro ⟨rfl | hm, hs⟩
        · exact Or.inl rfl
        · by_cases hax : x = a
          · exact Or.inl hax
          · refine Or.inr ⟨hm, fun hx => ?_⟩
            rcases hx with h1 | h2
            · exact hax h1
            · exact hs h2

theorem mem_dedupKeepFirst {α : Type _} [DecidableEq α] (l : List α) (x : α) :
    x ∈ dedupKeepFirst l ↔ x ∈ l := by
  simp [dedupKeepFirst, dedupKeepFirst_go_mem]

theorem dedupKeepFirst_go_nodup {α : Type _} [DecidableEq α] (l seen : List α) :
    (dedupKeepFirst.go l seen).Nodup := by
  induction l generalizing seen with
  | nil => simp [dedupKeepFirst.go]
  | cons a as ih =>
    by_cases h : a ∈ seen
    · simpa [dedupKeepFirst.go, if_pos h] using ih seen
    · simp only [dedupKeepFirst.go, if_neg h, List.nodup_cons]
      refine ⟨fun hmem => ?_, ih (a :: seen)⟩
      rcases (dedupKeepFirst_go_mem as (a :: seen) a).mp hmem with ⟨_, hs⟩
      exact hs (List.mem_cons_self a seen)

theorem nodup_dedupKeepFirst {α : Type _} [DecidableEq α] (l : List α) :
    (dedupKeepFirst l).Nodup :=
  dedupKeepFirst_go_nodup l []

theorem find?_transition_spec (l : List StateTransition)
    (hnd : (l.map (fun t => (t.fromState, t.toState))).Nodup)
    (a b : ResearchSessionStatus) (s : ResearchSessionData) :
    (match l.find? (fun t => t.fromState == a && t.toState == b) with
      | none => false
      | some t => t.condition s) = true ↔
    ∃ t ∈ l, t.fromState = a ∧ t.toState = b ∧ t.condition s = true := by
  induction l with
  | nil => simp
  | cons t ts ih =>
    simp only [List.map_cons, List.nodup_cons, List.mem_map] at hnd
    obtain ⟨hnotin, hnd2⟩ := hnd
    by_cases hp : (t.fromState == a && t.toState == b) = true
    · rw [List.find?_cons_of_pos ts hp]
      simp only [Bool.and_eq_true, beq_iff_eq] at hp
      obtain ⟨hfa, htb⟩ := hp
      constructor
      · intro hc
        exact ⟨t, List.mem_cons_self t ts, hfa, htb, hc⟩
      · rintro ⟨u, hu, hfa2, htb2, hc2⟩
        rcases List.mem_cons.mp hu with rfl | hmem
        · exact hc2
        · exact absurd ⟨u, hmem, by rw [hfa2, htb2, hfa, htb]⟩ hnotin
    · rw [List.find?_cons_of_neg ts hp]
      rw [ih hnd2]
      simp only [Bool.and_eq_true, beq_iff_eq] at hp
      constructor
      · rintro ⟨u, hu, h1, h2, h3⟩
        exact ⟨u, List.mem_cons_of_mem _ hu, h1, h2, h3⟩
      · rintro ⟨u, hu, h1, h2, h3⟩
        rcases List.mem_cons.mp hu with rfl | hmem
        · exact absurd ⟨h1, h2⟩ hp
        · exact ⟨u, hmem, h1, h2, h3⟩

/-- Claim C1: `canTransition(from, to, session)` returns true when `from = to`;
returns true when `to = FAILED`; and otherwise returns true exactly when the
transition table contains an entry `(from, to)` whose guard evaluates to true
on the session snapshot, returning false when no such entry exists. -/
theorem C1_canTransition_characterization
    (a b : ResearchSessionStatus) (s : ResearchSessionData) :
    canTransition a b s = true ↔
      (a = b ∨ b = ResearchSessionStatus.FAILED ∨
        ∃ t ∈ transitions, t.fromState = a ∧ t.toState = b ∧ t.condition s = true) := by
  unfold canTransition
  by_cases hab : a = b
  · simp [hab]
  · rw [if_neg hab]
    by_cases hbf : b = ResearchSessionStatus.FAILED
    · simp [hbf]
    · rw [if_neg hbf]
      rw [find?_transition_spec transitions (by decide) a b s]
      simp [hab, hbf]

/-- Session snapshot in `REFINEMENTS_IN_PROGRESS` with 3 refinements,
2 answered and 1 unanswered. -/
def session3Partial : ResearchSessionData :=
  { id := "s1", userId := "u1", title := "T", initialPrompt := "P",
    refinedPrompt := none, status := ResearchSessionStatus.REFINEMENTS_IN_PROGRESS,
    openaiResult := none, geminiResult := none, pdfUrl := none,
    pdfGeneratedAt := none, emailSentAt := none, errorMessage := none,
    refinements :=
      [ { question := "Q0", answer := some "A0", questionIndex := 0, answeredAt := some () },
        { question := "Q1", answer := some "A1", questionIndex := 1, answeredAt := some () },
        { question := "Q2", answer := none, questionIndex := 2, answeredAt := none } ] }

/-- The same snapshot once the third refinement is answered. -/
def session3Answered : ResearchSessionData :=
  { session3Partial with
    refinements :=
      [ { question := "Q0", answer := some "A0", questionIndex := 0, answeredAt := some () },
        { question := "Q1", answer := some "A1", questionIndex := 1, answeredAt := some () },
        { question := "Q2", answer := some "A2", questionIndex := 2, answeredAt := some () } ] }

/-- Claim C2: `REFINEMENTS_COMPLETE ∈ getNextStates(REFINEMENTS_IN_PROGRESS, s)`
holds iff the session has at least one refinement and every refinement has a
non-empty answer; in particular with 3 refinements of which one is unanswered
the set excludes `REFINEMENTS_COMPLETE`, and once all 3 are answered it
includes it. -/
theorem C2_refinements_complete_guard :
    (∀ s : ResearchSessionData,
      (ResearchSessionStatus.REFINEMENTS_COMPLETE ∈
          getNextStates ResearchSessionStatus.REFINEMENTS_IN_PROGRESS s) ↔
        (0 < s.refinements.length ∧ ∀ r ∈ s.refinements, truthyStr r.answer = true)) ∧
    ResearchSessionStatus.REFINEMENTS_COMPLETE ∉
      getNextStates ResearchSessionStatus.REFINEMENTS_IN_PROGRESS session3Partial ∧
    ResearchSessionStatus.REFINEMENTS_COMPLETE ∈
      getNextStates ResearchSessionStatus.REFINEMENTS_IN_PROGRESS session3Answered := by
  refine ⟨fun s => ?_, by decide, by decide⟩
  simp only [getNextStates, mem_dedupKeepFirst]
  simp +decide [transitions, List.filter_cons, List.mem_filter]
  constructor
  · rintro ⟨a, ⟨⟨hall, hlen⟩, rfl⟩, h2⟩
    exact ⟨hlen, hall⟩
  · rintro ⟨hlen, hall⟩
    exact ⟨_, ⟨⟨hall, hlen⟩, rfl⟩, rfl⟩

/-- Claim C9: `FAILED` is absorbing: `getNextStates(FAILED, s)` is the
singleton `[FAILED]`, `getNextState` of a session whose status is `FAILED`
returns null, and `getNextStates` never returns duplicates. -/
theorem C9_failed_absorbing :
    (∀ s : ResearchSessionData,
      getNextStates ResearchSessionStatus.FAILED s = [ResearchSessionStatus.FAILED]) ∧
    (∀ s : ResearchSessionData,
      getNextState { s with status := ResearchSessionStatus.FAILED } = none) ∧
    (∀ (c : ResearchSessionStatus) (s : ResearchSessionData),
      (getNextStates c s).Nodup) := by
  refine ⟨fun s => rfl, fun s => rfl, fun c s => nodup_dedupKeepFirst _⟩

/-- Calendar date after `setHours(0, 0, 0, 0)`: the usage guard only ever
compares year/month/day of such zeroed dates. -/
structure SimpleDate where
  year : Nat
  month : Nat
  day : Nat
deriving DecidableEq

/-- `today.getTime() > lastReset.getTime()` on midnight-zeroed dates:
strict calendar order. -/
def dateLt (a b : SimpleDate) : Bool :=
  decide (a.year < b.year) ||
    (a.year == b.year &&
      (decide (a.month < b.month) || (a.month == b.month && decide (a.day < b.day))))

/-- `API_LIMITS` configuration shape (src/unnamed/part_003 lines 7-19);
the environment-variable overrides make each limit a parameter. -/
structure ApiLimits where
  OPENAI_DAILY_LIMIT : Nat
  OPENAI_MONTHLY_LIMIT : Nat
  OPENAI_GLOBAL_DAILY_LIMIT : Nat
  GEMINI_DAILY_LIMIT : Nat
  GEMINI_MONTHLY_LIMIT : Nat
  GEMINI_GLOBAL_DAILY_LIMIT : Nat
deriving DecidableEq

/-- The default limits (no environment overrides): 10/100/50 for OpenAI,
20/200/100 for Gemini. -/
def API_LIMITS : ApiLimits :=
  { OPENAI_DAILY_LIMIT := 10, OPENAI_MONTHLY_LIMIT := 100,
    OPENAI_GLOBAL_DAILY_LIMIT := 50, GEMINI_DAILY_LIMIT := 20,
    GEMINI_MONTHLY_LIMIT := 200, GEMINI_GLOBAL_DAILY_LIMIT := 100 }

/-- One `apiUsage` row. -/
structure ApiUsage where
  userId : String
  openaiRequestsToday : Nat
  openaiRequestsMonth : Nat
  geminiRequestsToday : Nat
  geminiRequestsMonth : Nat
  lastResetDate : SimpleDate
deriving DecidableEq

/-- Modelled from the spec: the Prisma schema is not in src/, so the column
defaults used by `prisma.apiUsage.create({ data: { userId } })` are taken
from spec section 3 ("created lazily on first quota check... all counters
zero on creation"); `lastResetDate` defaults to the current date. -/
def freshApiUsage (userId : String) (now : SimpleDate) : ApiUsage :=
  { userId := userId, openaiRequestsToday := 0, openaiRequestsMonth := 0,
    geminiRequestsToday := 0, geminiRequestsMonth := 0, lastResetDate := now }

/-- The `apiUsage` table. -/
abbrev UsageStore := List ApiUsage

/-- `prisma.apiUsage.findUnique({ where: { userId } })`. -/
def findUsage (store : UsageStore) (userId : String) : Option ApiUsage :=
  store.find? (fun u => u.userId == userId)

/-- `prisma.apiUsage.update({ where: { userId }, data: ... })`. -/
def updateUsage (store : UsageStore) (userId : String) (f : ApiUsage → ApiUsage) :
    UsageStore :=
  store.map (fun u => if u.userId == userId then f u else u)

/-- Lines 28-36 of src/unnamed/part_003: load the user's record, lazily
creating it with the schema defaults when absent. -/
def getOrCreateUsage (today : SimpleDate) (store : UsageStore) (userId : String) :
    ApiUsage × UsageStore :=
  match findUsage store userId with
  | some u => (u, store)
  | none =>
      let u := freshApiUsage userId today
      (u, store ++ [u])

/-- Lines 44-53: if today is strictly after `lastResetDate`, zero both
providers' daily counters and write today into `lastResetDate`. -/
def dayRolloverState (today : SimpleDate) (usage : ApiUsage) (store : UsageStore)
    (userId : String) : ApiUsage × UsageStore :=
  if dateLt usage.lastResetDate today then
    let u1 := { usage with openaiRequestsToday := 0, geminiRequestsToday := 0,
                           lastResetDate := today }
    (u1, updateUsage store userId (fun _ => u1))
  else (usage, store)

/-- Lines 55-70: if the month or year of today differs from that of
`lastReset`, zero both providers' monthly counters and write today into
`lastResetDate`.  The `lastReset` argument is supplied by the caller:
the source passes the value snapshotted before the day rollover. -/
def monthRolloverState (today lastReset : SimpleDate) (usage : ApiUsage)
    (store : UsageStore) (userId : String) : ApiUsage × UsageStore :=
  if today.month != lastReset.month || today.year != lastReset.year then
    let u1 := { usage with openaiRequestsMonth := 0, geminiRequestsMonth := 0,
                           lastResetDate := today }
    (u1, updateUsage store userId (fun _ => u1))
  else (usage, store)

/-- The full load/create-then-rollover prefix of `canMakeOpenAIRequest` /
`canMakeGeminiRequest` (src/unnamed/part_003 lines 26-70): the month
condition compares against the `lastReset` value captured at lines 41-42,
before the day rollover may overwrite `lastResetDate`. -/
def rolloverState (today : SimpleDate) (store : UsageStore) (userId : String) :
    ApiUsage × UsageStore :=
  let p0 := getOrCreateUsage today store userId
  let lastReset := p0.1.lastResetDate
  let p1 := dayRolloverState today p0.1 p0.2 userId
  monthRolloverState today lastReset p1.1 p1.2 userId

/-- Follows the claim wording (not the source): the month-rollover condition
is evaluated against the possibly-already-updated `lastResetDate` written by
the same-call day rollover, rather than against the value snapshotted at the
start of the call. -/
def rolloverStateReread (today : SimpleDate) (store : UsageStore) (userId : String) :
    ApiUsage × UsageStore :=
  let p0 := getOrCreateUsage today store userId
  let p1 := dayRolloverState today p0.1 p0.2 userId
  monthRolloverState today p1.1.lastResetDate p1.1 p1.2 userId

/-- The `{ allowed: boolean, reason?: string }` result of the guard checks. -/
structure CheckResult where
  allowed : Bool
  reason : Option String
deriving DecidableEq

/-- Failure oracle for the storage operations a guard call performs; a set
flag makes the corresponding prisma call reject. -/
structure DbFailures where
  findFails : Bool
  createFails : Bool
  updateFails : Bool
  aggregateFails : Bool
deriving DecidableEq

/-- The healthy store: no operation fails. -/
def noFailures : DbFailures :=
  { findFails := false, createFails := false, updateFails := false,
    aggregateFails := false }

def dailyOpenAIReasonMsg (limits : ApiLimits) : String :=
  "Daily OpenAI limit reached (" ++ toString limits.OPENAI_DAILY_LIMIT ++
    " requests). Please try again tomorrow."

def monthlyOpenAIReasonMsg (limits : ApiLimits) : String :=
  "Monthly OpenAI limit reached (" ++ toString limits.OPENAI_MONTHLY_LIMIT ++
    " requests). Limit resets at the start of next month."

def dailyGeminiReasonMsg (limits : ApiLimits) : String :=
  "Daily Gemini limit reached (" ++ toString limits.GEMINI_DAILY_LIMIT ++
    " requests). Please try again tomorrow."

def monthlyGeminiReasonMsg (limits : ApiLimits) : String :=
  "Monthly Gemini limit reached (" ++ toString limits.GEMINI_MONTHLY_LIMIT ++
    " requests). Limit resets at the start of next month."

def unavailableReasonMsg : String :=
  "Service temporarily unavailable due to high demand. Please try again later."

/-- The `try` block of `ApiUsageGuard.canMakeOpenAIRequest`
(src/unnamed/part_003 lines 25-103).  Each prisma call is guarded by its
failure flag, producing the `Except.error` that the source's `catch`
swallows; a failing call performs no write, so the error exits occur
before the corresponding store change. -/
def canMakeOpenAIRequestTry (fail : DbFailures) (limits : ApiLimits)
    (today : SimpleDate) (store : UsageStore) (userId : String) :
    Except Unit (CheckResult × UsageStore) :=
  if fail.findFails then .error () else
  if (findUsage store userId).isNone && fail.createFails then .error () else
  let p0 := getOrCreateUsage today store userId
  let lastReset := p0.1.lastResetDate
  if dateLt lastReset today && fail.updateFails then .error () else
  let p1 := dayRolloverState today p0.1 p0.2 userId
  if (today.month != lastReset.month || today.year != lastReset.year)
      && fail.updateFails then .error () else
  let p2 := monthRolloverState today lastReset p1.1 p1.2 userId
  let usage := p2.1
  let store2 := p2.2
  if limits.OPENAI_DAILY_LIMIT ≤ usage.openaiRequestsToday then
    .ok ({ allowed := false, reason := some (dailyOpenAIReasonMsg limits) }, store2)
  else if limits.OPENAI_MONTHLY_LIMIT ≤ usage.openaiRequestsMonth then
    .ok ({ allowed := false, reason := some (monthlyOpenAIReasonMsg limits) }, store2)
  else if fail.aggregateFails then .error () else
  let totalGlobalToday := (store2.map (fun u => u.openaiRequestsToday)).sum
  if limits.OPENAI_GLOBAL_DAILY_LIMIT ≤ totalGlobalToday then
    .ok ({ allowed := false, reason := some unavailableReasonMsg }, store2)
  else .ok ({ allowed := true, reason := none }, store2)

/-- `ApiUsageGuard.canMakeOpenAIRequest`: the surrounding `catch` swallows
any storage error and fails open (lines 104-108). -/
def canMakeOpenAIRequest (fail : DbFailures) (limits : ApiLimits)
    (today : SimpleDate) (store : UsageStore) (userId : String) : CheckResult :=
  match canMakeOpenAIRequestTry fail limits today store userId with
  | .ok r => r.1
  | .error _ => { allowed := true, reason := none }

/-- The `try` block of `ApiUsageGuard.canMakeGeminiRequest`
(src/unnamed/part_003 lines 114-192), structurally identical to the OpenAI
check with the Gemini counters and limits. -/
def canMakeGeminiRequestTry (fail : DbFailures) (limits : ApiLimits)
    (today : SimpleDate) (store : UsageStore) (userId : String) :
    Except Unit (CheckResult × UsageStore) :=
  if fail.findFails then .error () else
  if (findUsage store userId).isNone && fail.createFails then .error () else
  let p0 := getOrCreateUsage today store userId
  let lastReset := p0.1.lastResetDate
  if dateLt lastReset today && fail.updateFails then .error () else
  let p1 := dayRolloverState today p0.1 p0.2 userId
  if (today.month != lastReset.month || today.year != lastReset.year)
      && fail.updateFails then .error () else
  let p2 := monthRolloverState today lastReset p1.1 p1.2 userId
  let usage := p2.1
  let store2 := p2.2
  if limits.GEMINI_DAILY_LIMIT ≤ usage.geminiRequestsToday then
    .ok ({ allowed := false, reason := some (dailyGeminiReasonMsg limits) }, store2)
  else if limits.GEMINI_MONTHLY_LIMIT ≤ usage.geminiRequestsMonth then
    .ok ({ allowed := false, reason := some (monthlyGeminiReasonMsg limits) }, store2)
  else if fail.aggregateFails then .error () else
  let totalGlobalToday := (store2.map (fun u => u.geminiRequestsToday)).sum
  if limits.GEMINI_GLOBAL_DAILY_LIMIT ≤ totalGlobalToday then
    .ok ({ allowed := false, reason := some unavailableReasonMsg }, store2)
  else .ok ({ allowed := true, reason := none }, store2)

/-- `ApiUsageGuard.canMakeGeminiRequest` with its fail-open `catch`
(lines 193-197). -/
def canMakeGeminiRequest (fail : DbFailures) (limits : ApiLimits)
    (today : SimpleDate) (store : UsageStore) (userId : String) : CheckResult :=
  match canMakeGeminiRequestTry fail limits today store userId with
  | .ok r => r.1
  | .error _ => { allowed := true, reason := none }

/-- The `try` block of `ApiUsageGuard.recordOpenAIRequest`
(src/unnamed/part_003 lines 204-216): a single `upsert`. -/
def recordOpenAIRequestTry (fail : Bool) (now : SimpleDate) (store : UsageStore)
    (userId : String) : Except Unit UsageStore :=
  if fail then .error () else
  match findUsage store userId with
  | some _ =>
      .ok (updateUsage store userId (fun u =>
        { u with openaiRequestsToday := u.openaiRequestsToday + 1,
                 openaiRequestsMonth := u.openaiRequestsMonth + 1 }))
  | none =>
      .ok (store ++ [{ freshApiUsage userId now with
        openaiRequestsToday := 1, openaiRequestsMonth := 1 }])

/-- `ApiUsageGuard.recordOpenAIRequest`: storage errors are swallowed and
never reach the caller (lines 217-220). -/
def recordOpenAIRequest (fail : Bool) (now : SimpleDate) (store : UsageStore)
    (userId : String) : UsageStore :=
  match recordOpenAIRequestTry fail now store userId with
  | .ok s => s
  | .error _ => store

/-- The `try` block of `ApiUsageGuard.recordGeminiRequest`
(src/unnamed/part_003 lines 227-239). -/
def recordGeminiRequestTry (fail : Bool) (now : SimpleDate) (store : UsageStore)
    (userId : String) : Except Unit UsageStore :=
  if fail then .error () else
  match findUsage store userId with
  | some _ =>
      .ok (updateUsage store userId (fun u =>
        { u with geminiRequestsToday := u.geminiRequestsToday + 1,
                 geminiRequestsMonth := u.geminiRequestsMonth + 1 }))
  | none =>
      .ok (store ++ [{ freshApiUsage userId now with
        geminiRequestsToday := 1, geminiRequestsMonth := 1 }])

/-- `ApiUsageGuard.recordGeminiRequest` with its error-swallowing `catch`
(lines 240-243). -/
def recordGeminiRequest (fail : Bool) (now : SimpleDate) (store : UsageStore)
    (userId : String) : UsageStore :=
  match recordGeminiRequestTry fail now store userId with
  | .ok s => s
  | .error _ => store

def sampleDay : SimpleDate := { year := 2024, month := 5, day := 10 }

/-- A user record already at the default OpenAI daily limit of 10. -/
def usageAtDailyLimit : ApiUsage :=
  { userId := "u1", openaiRequestsToday := 10, openaiRequestsMonth := 10,
    geminiRequestsToday := 0, geminiRequestsMonth := 0, lastResetDate := sampleDay }

/-- The same user one request below the daily limit. -/
def usageUnderDailyLimit : ApiUsage :=
  { usageAtDailyLimit with openaiRequestsToday := 9, openaiRequestsMonth := 9 }

/-- Claim C5: after rollovers, `canMakeRequest` evaluates the three ceilings
in the order daily, monthly, global, denying with the daily reason (which
begins with "Daily"), the monthly reason, or the generic
temporarily-unavailable reason respectively, and allowing otherwise; with
daily limit 10 a today-count of 10 is denied and a today-count of 9 (other
ceilings unreached) is allowed. -/
theorem C5_canMakeRequest_ceiling_order :
    (∀ (limits : ApiLimits) (today : SimpleDate) (store : UsageStore) (userId : String),
      canMakeOpenAIRequest noFailures limits today store userId =
        (let usage := (rolloverState today store userId).1
         let store2 := (rolloverState today store userId).2
         let totalGlobalToday := (store2.map (fun u => u.openaiRequestsToday)).sum
         if limits.OPENAI_DAILY_LIMIT ≤ usage.openaiRequestsToday then
           { allowed := false, reason := some (dailyOpenAIReasonMsg limits) }
         else if limits.OPENAI_MONTHLY_LIMIT ≤ usage.openaiRequestsMonth then
           { allowed := false, reason := some (monthlyOpenAIReasonMsg limits) }
         else if limits.OPENAI_GLOBAL_DAILY_LIMIT ≤ totalGlobalToday then
           { allowed := false, reason := some unavailableReasonMsg }
         else { allowed := true, reason := none })) ∧
    dailyOpenAIReasonMsg API_LIMITS =
      "Daily" ++ " OpenAI limit reached (10 requests). Please try again tomorrow." ∧
    canMakeOpenAIRequest noFailures API_LIMITS sampleDay [usageAtDailyLimit] "u1" =
      { allowed := false, reason := some (dailyOpenAIReasonMsg API_LIMITS) } ∧
    canMakeOpenAIRequest noFailures API_LIMITS sampleDay [usageUnderDailyLimit] "u1" =
      { allowed := true, reason := none } := by
  refine ⟨fun limits today store userId => ?_, by decide, by decide, by decide⟩
  simp [canMakeOpenAIRequest, canMakeOpenAIRequestTry, noFailures, rolloverState]
  split_ifs <;> rfl

/-- An oracle whose `findUnique` call rejects. -/
def findFailure : DbFailures := { noFailures with findFails := true }

/-- Claim C6: any storage error raised inside `canMakeRequest` is swallowed
and the call fails open with `allowed: true`, for both providers, regardless
of the stored counter values. -/
theorem C6_fail_open :
    (∀ (fail : DbFailures) (limits : ApiLimits) (today : SimpleDate)
        (store : UsageStore) (userId : String),
      canMakeOpenAIRequestTry fail limits today store userId = .error () →
      canMakeOpenAIRequest fail limits today store userId =
        { allowed := true, reason := none }) ∧
    (∀ (fail : DbFailures) (limits : ApiLimits) (today : SimpleDate)
        (store : UsageStore) (userId : String),
      canMakeGeminiRequestTry fail limits today store userId = .error () →
      canMakeGeminiRequest fail limits today store userId =
        { allowed := true, reason := none }) := by
  constructor
  · intro fail limits today store userId h
    simp [canMakeOpenAIRequest, h]
  · intro fail limits today store userId h
    simp [canMakeGeminiRequest, h]

/-- A concrete fail-open run: the user is at the daily limit, yet a failing
`findUnique` makes both checks return `allowed: true`. -/
theorem C6_fail_open_witness :
    canMakeOpenAIRequest findFailure API_LIMITS sampleDay [usageAtDailyLimit] "u1" =
      { allowed := true, reason := none } ∧
    canMakeGeminiRequest findFailure API_LIMITS sampleDay [usageAtDailyLimit] "u1" =
      { allowed := true, reason := none } :=
  ⟨C6_fail_open.1 findFailure API_LIMITS sampleDay [usageAtDailyLimit] "u1" rfl,
    C6_fail_open.2 findFailure API_LIMITS sampleDay [usageAtDailyLimit] "u1" rfl⟩

/-- A record whose last reset was December 15, 2023, with nonzero counters. -/
def usageDec2023 : ApiUsage :=
  { userId := "u1", openaiRequestsToday := 5, openaiRequestsMonth := 7,
    geminiRequestsToday := 3, geminiRequestsMonth := 4,
    lastResetDate := { year := 2023, month := 12, day := 15 } }

def jan2024 : SimpleDate := { year := 2024, month := 1, day := 5 }

/-- Claim C7 fails on the code: on a coinciding day- and month-rollover the
source's month condition uses the `lastReset` snapshot taken at the start of
the call, not the just-written `lastResetDate`; the two readings disagree on
January 5, 2024 for a record last reset on December 15, 2023 (the source
resets the monthly counter to 0, the claimed re-read behaviour would leave
it at 7). -/
theorem C7_counterexample :
    rolloverState jan2024 [usageDec2023] "u1" ≠
        rolloverStateReread jan2024 [usageDec2023] "u1" ∧
    (rolloverState jan2024 [usageDec2023] "u1").1.openaiRequestsMonth = 0 ∧
    (rolloverStateReread jan2024 [usageDec2023] "u1").1.openaiRequestsMonth = 7 := by
  decide

/-- Claim C7 (amended): the month-rollover condition is evaluated against the
`lastResetDate` snapshotted at the start of the call, so when a day-rollover
coincides with a month boundary the monthly counters are reset and
`lastResetDate` becomes today. -/
theorem C7_month_rollover_snapshot (today : SimpleDate) (store : UsageStore)
    (userId : String)
    (hday : dateLt (getOrCreateUsage today store userId).1.lastResetDate today = true)
    (hmonth : (today.month != (getOrCreateUsage today store userId).1.lastResetDate.month ||
        today.year != (getOrCreateUsage today store userId).1.lastResetDate.year) = true) :
    (rolloverState today store userId).1.openaiRequestsMonth = 0 ∧
    (rolloverState today store userId).1.geminiRequestsMonth = 0 ∧
    (rolloverState today store userId).1.openaiRequestsToday = 0 ∧
    (rolloverState today store userId).1.geminiRequestsToday = 0 ∧
    (rolloverState today store userId).1.lastResetDate = today := by
  simp only [rolloverState, dayRolloverState, monthRolloverState, hday, hmonth, if_true]
  simp

/-- The amended C7 at the concrete coinciding rollover. -/
theorem C7_month_rollover_snapshot_witness :
    (rolloverState jan2024 [usageDec2023] "u1").1.openaiRequestsMonth = 0 ∧
    (rolloverState jan2024 [usageDec2023] "u1").1.geminiRequestsMonth = 0 ∧
    (rolloverState jan2024 [usageDec2023] "u1").1.openaiRequestsToday = 0 ∧
    (rolloverState jan2024 [usageDec2023] "u1").1.geminiRequestsToday = 0 ∧
    (rolloverState jan2024 [usageDec2023] "u1").1.lastResetDate = jan2024 :=
  C7_month_rollover_snapshot jan2024 [usageDec2023] "u1" (by decide) (by decide)

theorem findUsage_updateUsage (store : UsageStore) (userId : String)
    (f : ApiUsage → ApiUsage) (hf : ∀ u, (f u).userId = u.userId) :
    findUsage (updateUsage store userId f) userId =
      (findUsage store userId).map f := by
  induction store with
  | nil => rfl
  | cons u us ih =>
    by_cases h : (u.userId == userId) = true
    · have h2 : u.userId = userId := by simpa using h
      subst h2
      simp [findUsage, updateUsage, List.find?_cons, hf u]
    · simp only [findUsage, updateUsage, List.map_cons, List.find?_cons, if_neg h] at ih ⊢
      simp only [h]
      exact ih

/-- Claim C8: each `recordRequest` call increments the provider's today- and
month-count by exactly 1, creating the record (that provider's counts at 1,
the other's at 0) when absent; 3 successive calls for a fresh user yield
today-count 3 and month-count 3; and a storage failure is swallowed, so the
call returns normally to its caller. -/
theorem C8_recordRequest_increments :
    (∀ (now : SimpleDate) (store : UsageStore) (userId : String),
      findUsage store userId = none →
      recordOpenAIRequest false now store userId =
        store ++ [{ userId := userId, openaiRequestsToday := 1, openaiRequestsMonth := 1,
                    geminiRequestsToday := 0, geminiRequestsMonth := 0,
                    lastResetDate := now }]) ∧
    (∀ (now : SimpleDate) (store : UsageStore) (userId : String) (u : ApiUsage),
      findUsage store userId = some u →
      findUsage (recordOpenAIRequest false now store userId) userId =
        some { u with openaiRequestsToday := u.openaiRequestsToday + 1,
                      openaiRequestsMonth := u.openaiRequestsMonth + 1 }) ∧
    (∀ (now : SimpleDate) (userId : String),
      findUsage
        (recordOpenAIRequest false now
          (recordOpenAIRequest false now
            (recordOpenAIRequest false now [] userId) userId) userId) userId =
      some { userId := userId, openaiRequestsToday := 3, openaiRequestsMonth := 3,
             geminiRequestsToday := 0, geminiRequestsMonth := 0, lastResetDate := now }) ∧
    (∀ (now : SimpleDate) (store : UsageStore) (userId : String),
      recordOpenAIRequest true now store userId = store) ∧
    (∀ (now : SimpleDate) (userId : String),
      findUsage
        (recordGeminiRequest false now
          (recordGeminiRequest false now
            (recordGeminiRequest false now [] userId) userId) userId) userId =
      some { userId := userId, openaiRequestsToday := 0, openaiRequestsMonth := 0,
             geminiRequestsToday := 3, geminiRequestsMonth := 3, lastResetDate := now }) ∧
    (∀ (now : SimpleDate) (store : UsageStore) (userId : String),
      recordGeminiRequest true now store userId = store) := by
  refine ⟨?_, ?_, ?_, ?_, ?_, ?_⟩
  · intro now store userId h
    simp [recordOpenAIRequest, recordOpenAIRequestTry, h, freshApiUsage]
  · intro now store userId u h
    have hrec : recordOpenAIRequest false now store userId =
        updateUsage store userId (fun v =>
          { v with openaiRequestsToday := v.openaiRequestsToday + 1,
                   openaiRequestsMonth := v.openaiRequestsMonth + 1 }) := by
      simp [recordOpenAIRequest, recordOpenAIRequestTry, h]
    rw [hrec, findUsage_updateUsage store userId (fun v =>
          { v with openaiRequestsToday := v.openaiRequestsToday + 1,
                   openaiRequestsMonth := v.openaiRequestsMonth + 1 }) (fun v => rfl),
      h]
    rfl
  · intro now userId
    simp [recordOpenAIRequest, recordOpenAIRequestTry, findUsage, updateUsage,
      freshApiUsage, List.find?]
  · intro now store userId
    rfl
  · intro now userId
    simp [recordGeminiRequest, recordGeminiRequestTry, findUsage, updateUsage,
      freshApiUsage, List.find?]
  · intro now store userId
    rfl

/-- The create and increment cases of C8 at concrete inputs. -/
theorem C8_recordRequest_increments_witness :
    recordOpenAIRequest false sampleDay [] "u1" =
      [{ userId := "u1", openaiRequestsToday := 1, openaiRequestsMonth := 1,
         geminiRequestsToday := 0, geminiRequestsMonth := 0,
         lastResetDate := sampleDay }] ∧
    findUsage (recordOpenAIRequest false sampleDay [usageAtDailyLimit] "u1") "u1" =
      some { usageAtDailyLimit with
        openaiRequestsToday := 11, openaiRequestsMonth := 11 } :=
  ⟨C8_recordRequest_increments.1 sampleDay [] "u1" rfl,
    C8_recordRequest_increments.2.1 sampleDay [usageAtDailyLimit] "u1"
      usageAtDailyLimit rfl⟩

/-- src/lib/types.ts `RefinementQuestion`. -/
structure RefinementQuestion where
  question : String
  index : Nat
deriving DecidableEq

/-- src/lib/types.ts `DeepResearchResponse`. -/
structure DeepResearchResponse where
  refinementQuestions : Option (List RefinementQuestion)
  result : Option String
  requiresRefinement : Bool
deriving DecidableEq

/-- Outcomes of the external calls one `runResearch` invocation performs:
the two usage-guard checks, the two provider calls (each may reject), PDF
generation and email delivery.  `userEmail` is `session.user.email`. -/
structure RunResearchEnv where
  canOpenAI : CheckResult
  canGemini : CheckResult
  openaiOutcome : Except String DeepResearchResponse
  geminiOutcome : Except String String
  pdfOutcome : Except String Unit
  userEmail : Option String
  emailOutcome : Except String Unit

/-- Result of one orchestrator entry point: the successive persisted
session rows, whether each provider's usage was recorded, and the message
of the re-raised error when the call threw. -/
structure OrchestratorOutcome where
  trace : List ResearchSessionData
  recordedOpenAI : Bool
  recordedGemini : Bool
  error : Option String
deriving DecidableEq

def exceptOk {ε α : Type _} : Except ε α → Bool
  | .ok _ => true
  | .error _ => false

/-- Lines 390-395 of src/lib/email-service.ts: collect the disallowed
checks' reasons, drop null/empty ones (`filter(Boolean)`), join with a
space. -/
def joinReasons (canO canG : CheckResult) : String :=
  let parts := [if !canO.allowed then canO.reason else none,
                if !canG.allowed then canG.reason else none]
  String.intercalate " " ((parts.filterMap id).filter (fun s => !(s == "")))

/-- `ResearchOrchestrator.runResearch` (src/lib/email-service.ts lines
366-482).  The session row is passed directly (the `findUnique` reload and
its not-found throw are outside every claim).  `Promise.allSettled` gives
per-branch isolation: each provider branch is an independent
`Except`; usage is recorded inside a branch only after its provider call
fulfilled, and `recordRequest` itself never rejects.  The OpenAI branch's
fulfilled value is `r.result || ''`. -/
def runResearch (env : RunResearchEnv) (sessionData : ResearchSessionData) :
    OrchestratorOutcome :=
  let s1 := { sessionData with status := ResearchSessionStatus.RUNNING_RESEARCH }
  if !env.canOpenAI.allowed || !env.canGemini.allowed then
    let msg := joinReasons env.canOpenAI env.canGemini
    let errMsg := if msg == "" then "API usage limit reached" else msg
    let sf := { s1 with status := ResearchSessionStatus.FAILED,
                        errorMessage := some errMsg }
    -- the inner throw is caught by the surrounding catch, which persists
    -- FAILED again with the same message and re-raises
    { trace := [s1, sf, sf], recordedOpenAI := false, recordedGemini := false,
      error := some errMsg }
  else
    let openaiText := match env.openaiOutcome with
      | .ok r => r.result.getD ""
      | .error _ => "Research failed"
    let geminiText := match env.geminiOutcome with
      | .ok t => t
      | .error _ => "Research failed"
    let recordedO := exceptOk env.openaiOutcome
    let recordedG := exceptOk env.geminiOutcome
    let s2 := { s1 with openaiResult := some openaiText,
                        geminiResult := some geminiText,
                        status := ResearchSessionStatus.COMPLETED }
    match env.pdfOutcome with
    | .error e =>
        let sf := { s2 with status := ResearchSessionStatus.FAILED,
                            errorMessage := some e }
        { trace := [s1, s2, sf], recordedOpenAI := recordedO,
          recordedGemini := recordedG, error := some e }
    | .ok _ =>
        let s3 := { s2 with
          pdfUrl := some ("/api/sessions/" ++ sessionData.id ++ "/pdf"),
          pdfGeneratedAt := some () }
        if truthyStr env.userEmail then
          match env.emailOutcome with
          | .ok _ =>
              let s4 := { s3 with emailSentAt := some () }
              { trace := [s1, s2, s3, s4], recordedOpenAI := recordedO,
                recordedGemini := recordedG, error := none }
          | .error _ =>
              -- delivery failure is logged and swallowed
              { trace := [s1, s2, s3], recordedOpenAI := recordedO,
                recordedGemini := recordedG, error := none }
        else
          { trace := [s1, s2, s3], recordedOpenAI := recordedO,
            recordedGemini := recordedG, error := none }

/-- `ResearchOrchestrator.generateRefinedPrompt` (lines 351-361). -/
def generateRefinedPrompt (initialPrompt : String)
    (refinements : List RefinementData) : String :=
  let answers := String.intercalate "\n\n"
    ((refinements.filter (fun r => truthyStr r.answer)).map
      (fun r => "Q: " ++ r.question ++ "\nA: " ++ r.answer.getD ""))
  initialPrompt ++ "\n\n[REFINED]\n\nAdditional context based on clarifications:\n" ++
    answers

/-- `prisma.refinement.update` keyed by the id of the row that
`find((r) => r.questionIndex === questionIndex)` located: write the answer
and timestamp into the first row with the given index. -/
def setAnswerFirst (questionIndex : Nat) (answer : String) :
    List RefinementData → List RefinementData
  | [] => []
  | r :: rs =>
      if r.questionIndex == questionIndex then
        { r with answer := some answer, answeredAt := some () } :: rs
      else r :: setAnswerFirst questionIndex answer rs

/-- `ResearchOrchestrator.submitRefinementAnswer` (lines 279-346).  The
owner-scoped session load is abstracted: the located session row is passed
directly (the not-found throw is outside every claim).  The reload after
the refinement update observes exactly the written state. -/
def submitRefinementAnswer (renv : RunResearchEnv) (session : ResearchSessionData)
    (questionIndex : Nat) (answer : String) : OrchestratorOutcome :=
  match session.refinements.find? (fun r => r.questionIndex == questionIndex) with
  | none =>
      { trace := [], recordedOpenAI := false, recordedGemini := false,
        error := some "Refinement question not found" }
  | some _ =>
      let refs := setAnswerFirst questionIndex answer session.refinements
      let s1 := { session with refinements := refs }
      let allAnswered := refs.all (fun r => truthyStr r.answer)
      if allAnswered && decide (0 < refs.length) then
        let s2 := { s1 with status := ResearchSessionStatus.REFINEMENTS_COMPLETE }
        let refinedPrompt := generateRefinedPrompt s1.initialPrompt refs
        let s3 := { s2 with refinedPrompt := some refinedPrompt }
        let r := runResearch renv s3
        { trace := [s1, s2, s3] ++ r.trace, recordedOpenAI := r.recordedOpenAI,
          recordedGemini := r.recordedGemini, error := r.error }
      else
        let s2 := { s1 with status := ResearchSessionStatus.REFINEMENTS_IN_PROGRESS }
        { trace := [s1, s2], recordedOpenAI := false, recordedGemini := false,
          error := none }

/-- External-call outcomes for one `startSession` run: the usage-guard
check, the first provider call, and the `runResearch` environment for the
direct-research path. -/
structure StartSessionEnv where
  guard : CheckResult
  providerOutcome : Except String DeepResearchResponse
  runEnv : RunResearchEnv

/-- Result of `startSession`: persisted rows, the value returned to the
caller (none when the call threw), whether the OpenAI usage was recorded,
and the re-raised error message. -/
structure StartSessionOutcome where
  trace : List ResearchSessionData
  returned : Option ResearchSessionData
  recordedOpenAI : Bool
  error : Option String
deriving DecidableEq

/-- The row `prisma.researchSession.create` writes (lines 214-221). -/
def newSession (id userId title initialPrompt : String) : ResearchSessionData :=
  { id := id, userId := userId, title := title, initialPrompt := initialPrompt,
    refinedPrompt := none, status := ResearchSessionStatus.CREATED,
    openaiResult := none, geminiResult := none, pdfUrl := none,
    pdfGeneratedAt := none, emailSentAt := none, errorMessage := none,
    refinements := [] }

/-- `ResearchOrchestrator.startSession` (src/lib/email-service.ts lines
212-274).  On a guard denial the inner update writes FAILED and throws; the
surrounding catch persists FAILED with the same message again and
re-raises.  On `requiresRefinement && refinementQuestions` the refinement
rows are batch-created and the status becomes AWAITING_REFINEMENTS; else if
`response.result` is truthy the research path runs on the initial prompt;
otherwise nothing further happens and the stale `session` object from the
create is returned. -/
def startSession (env : StartSessionEnv) (id userId title initialPrompt : String) :
    StartSessionOutcome :=
  let s0 := newSession id userId title initialPrompt
  if !env.guard.allowed then
    let msg := if truthyStr env.guard.reason then env.guard.reason.getD ""
               else "API usage limit reached"
    let sf := { s0 with status := ResearchSessionStatus.FAILED,
                        errorMessage := some msg }
    { trace := [s0, sf, sf], returned := none, recordedOpenAI := false,
      error := some msg }
  else
    match env.providerOutcome with
    | .error e =>
        let sf := { s0 with status := ResearchSessionStatus.FAILED,
                            errorMessage := some e }
        { trace := [s0, sf], returned := none, recordedOpenAI := false,
          error := some e }
    | .ok response =>
        if response.requiresRefinement && !(response.refinementQuestions == none) then
          let questions := response.refinementQuestions.getD []
          let rows := questions.map (fun q =>
            { question := q.question, answer := none, questionIndex := q.index,
              answeredAt := none : RefinementData })
          let s1 := { s0 with refinements := rows }
          let s2 := { s1 with status := ResearchSessionStatus.AWAITING_REFINEMENTS }
          { trace := [s0, s1, s2], returned := some s0, recordedOpenAI := true,
            error := none }
        else if truthyStr response.result then
          let r := runResearch env.runEnv s0
          match r.error with
          | some m =>
              let cur := r.trace.getLastD s0
              let sf := { cur with status := ResearchSessionStatus.FAILED,
                                   errorMessage := some m }
              { trace := [s0] ++ r.trace ++ [sf], returned := none,
                recordedOpenAI := true, error := some m }
          | none =>
              { trace := [s0] ++ r.trace, returned := some s0,
                recordedOpenAI := true, error := none }
        else
          { trace := [s0], returned := some s0, recordedOpenAI := true,
            error := none }

theorem runResearch_refinedPrompt (env : RunResearchEnv) (s : ResearchSessionData) :
    ∀ r ∈ (runResearch env s).trace, r.refinedPrompt = s.refinedPrompt := by
  intro r hr
  simp only [runResearch] at hr
  repeat' split at hr
  all_goals fin_cases hr <;> rfl

/-- Claim C4: with both guard checks allowed and the surrounding
orchestration not throwing, a single provider failure inside `runResearch`
still yields a COMPLETED session whose failed-provider result is the
literal "Research failed" and whose other result is the real output;
usage is recorded only for the successful provider. -/
theorem C4_partial_provider_failure (env : RunResearchEnv)
    (s : ResearchSessionData)
    (hO : env.canOpenAI.allowed = true) (hG : env.canGemini.allowed = true)
    (hpdf : env.pdfOutcome = .ok ()) :
    (∀ e g, env.openaiOutcome = .error e → env.geminiOutcome = .ok g →
      (runResearch env s).error = none ∧
      (runResearch env s).recordedOpenAI = false ∧
      (runResearch env s).recordedGemini = true ∧
      ∃ last, (runResearch env s).trace.getLast? = some last ∧
        last.status = ResearchSessionStatus.COMPLETED ∧
        last.openaiResult = some "Research failed" ∧
        last.geminiResult = some g) ∧
    (∀ r e, env.openaiOutcome = .ok r → env.geminiOutcome = .error e →
      (runResearch env s).error = none ∧
      (runResearch env s).recordedOpenAI = true ∧
      (runResearch env s).recordedGemini = false ∧
      ∃ last, (runResearch env s).trace.getLast? = some last ∧
        last.status = ResearchSessionStatus.COMPLETED ∧
        last.openaiResult = some (r.result.getD "") ∧
        last.geminiResult = some "Research failed") := by
  constructor
  · intro e g hoe hge
    cases hue : truthyStr env.userEmail
    · simp [runResearch, hO, hG, hpdf, hoe, hge, exceptOk, hue]
    · cases hem : env.emailOutcome
      · simp [runResearch, hO, hG, hpdf, hoe, hge, exceptOk, hue, hem]
      · simp [runResearch, hO, hG, hpdf, hoe, hge, exceptOk, hue, hem]
  · intro r e hoe hge
    cases hue : truthyStr env.userEmail
    · simp [runResearch, hO, hG, hpdf, hoe, hge, exceptOk, hue]
    · cases hem : env.emailOutcome
      · simp [runResearch, hO, hG, hpdf, hoe, hge, exceptOk, hue, hem]
      · simp [runResearch, hO, hG, hpdf, hoe, hge, exceptOk, hue, hem]

def okCheck : CheckResult := { allowed := true, reason := none }

/-- A run in which every external call succeeds. -/
def benignRunEnv : RunResearchEnv :=
  { canOpenAI := okCheck, canGemini := okCheck,
    openaiOutcome := .ok { refinementQuestions := none, result := some "O",
                           requiresRefinement := false },
    geminiOutcome := .ok "G", pdfOutcome := .ok (), userEmail := none,
    emailOutcome := .ok () }

/-- A run in which the OpenAI provider call rejects and everything else
succeeds. -/
def openaiFailEnv : RunResearchEnv :=
  { benignRunEnv with openaiOutcome := .error "boom" }

/-- The OpenAI-fails case of C4 at a concrete session. -/
theorem C4_partial_provider_failure_witness :
    (runResearch openaiFailEnv (newSession "s1" "u1" "T" "P")).error = none ∧
    (runResearch openaiFailEnv (newSession "s1" "u1" "T" "P")).recordedOpenAI = false ∧
    (runResearch openaiFailEnv (newSession "s1" "u1" "T" "P")).recordedGemini = true ∧
    ∃ last, (runResearch openaiFailEnv (newSession "s1" "u1" "T" "P")).trace.getLast? =
        some last ∧
      last.status = ResearchSessionStatus.COMPLETED ∧
      last.openaiResult = some "Research failed" ∧
      last.geminiResult = some "G" :=
  (C4_partial_provider_failure openaiFailEnv (newSession "s1" "u1" "T" "P")
    rfl rfl rfl).1 "boom" "G" rfl rfl

/-- A first-provider response with `requiresRefinement: true`, no
`refinementQuestions`, and a truthy `result`. -/
def refQsNoneEnv : StartSessionEnv :=
  { guard := okCheck,
    providerOutcome := .ok { refinementQuestions := none, result := some "R",
                             requiresRefinement := true },
    runEnv := benignRunEnv }

/-- Claim C10 fails on the code: a response with `requiresRefinement` true
and no `refinementQuestions` but a truthy `result` falls into the
`else if (response.result)` branch, so `runResearch` IS entered and the
persisted status leaves CREATED. -/
theorem C10_counterexample :
    ((startSession refQsNoneEnv "s1" "u1" "T" "P").trace.any
      (fun r => r.status == ResearchSessionStatus.RUNNING_RESEARCH)) = true ∧
    ¬ (∀ r ∈ (startSession refQsNoneEnv "s1" "u1" "T" "P").trace,
        r.status = ResearchSessionStatus.CREATED) := by
  decide

/-- Claim C10 (amended): when the response neither takes the refinement
branch (`requiresRefinement` false, or no `refinementQuestions`) nor has a
truthy `result`, `startSession` returns the created session without error,
the only persisted row stays in CREATED with no refinements, and the
research path is never entered. -/
theorem C10_fall_through (env : StartSessionEnv)
    (id userId title initialPrompt : String) (resp : DeepResearchResponse)
    (hguard : env.guard.allowed = true)
    (hresp : env.providerOutcome = .ok resp)
    (hnoref : resp.requiresRefinement = false ∨ resp.refinementQuestions = none)
    (hnores : truthyStr resp.result = false) :
    startSession env id userId title initialPrompt =
      { trace := [newSession id userId title initialPrompt],
        returned := some (newSession id userId title initialPrompt),
        recordedOpenAI := true, error := none } := by
  rcases hnoref with h | h
  · simp [startSession, hguard, hresp, h, hnores]
  · simp [startSession, hguard, hresp, h, hnores]

/-- A response with neither refinement questions nor a result. -/
def fallThroughEnv : StartSessionEnv :=
  { refQsNoneEnv with
    providerOutcome := .ok { refinementQuestions := none, result := none,
                             requiresRefinement := false } }

/-- The amended C10 at a concrete fall-through response. -/
theorem C10_fall_through_witness :
    startSession fallThroughEnv "s1" "u1" "T" "P" =
      { trace := [newSession "s1" "u1" "T" "P"],
        returned := some (newSession "s1" "u1" "T" "P"),
        recordedOpenAI := true, error := none } :=
  C10_fall_through fallThroughEnv "s1" "u1" "T" "P"
    { refinementQuestions := none, result := none, requiresRefinement := false }
    rfl rfl (Or.inl rfl) rfl

/-- A session mid-refinement with a single unanswered question. -/
def sessionOneUnanswered : ResearchSessionData :=
  { id := "s1", userId := "u1", title := "T", initialPrompt := "P",
    refinedPrompt := none, status := ResearchSessionStatus.REFINEMENTS_IN_PROGRESS,
    openaiResult := none, geminiResult := none, pdfUrl := none,
    pdfGeneratedAt := none, emailSentAt := none, errorMessage := none,
    refinements := [{ question := "Q1", answer := none, questionIndex := 0,
                      answeredAt := none }] }

/-- Claim C3 fails on the code: answering the last unanswered refinement
persists status REFINEMENTS_COMPLETE before the refined prompt is written,
so an intermediate persisted row has status REFINEMENTS_COMPLETE with
`refinedPrompt` unset. -/
theorem C3_counterexample :
    ((submitRefinementAnswer benignRunEnv sessionOneUnanswered 0 "A1").trace.any
      (fun r => r.status == ResearchSessionStatus.REFINEMENTS_COMPLETE
        && r.refinedPrompt == none)) = true := by
  decide

/-- Claim C3 (amended): when the last unanswered refinement receives a
non-empty answer, `submitRefinementAnswer` first persists status
REFINEMENTS_COMPLETE (with `refinedPrompt` still unset), then synthesizes
and persists the refined prompt, and only then invokes the research path;
from that write onward every persisted row carries the refined prompt. -/
theorem C3_refined_prompt_after_status (renv : RunResearchEnv)
    (session : ResearchSessionData) (questionIndex : Nat) (answer : String)
    (hfound : (session.refinements.find?
      (fun r => r.questionIndex == questionIndex)).isSome = true)
    (hall : (setAnswerFirst questionIndex answer session.refinements).all
        (fun r => truthyStr r.answer) = true)
    (hlen : 0 < (setAnswerFirst questionIndex answer session.refinements).length)
    (hrp : session.refinedPrompt = none) :
    ∃ s2 s3 : ResearchSessionData,
      (submitRefinementAnswer renv session questionIndex answer).trace =
        [{ session with
            refinements := setAnswerFirst questionIndex answer session.refinements },
         s2, s3] ++ (runResearch renv s3).trace ∧
      s2.status = ResearchSessionStatus.REFINEMENTS_COMPLETE ∧
      s2.refinedPrompt = none ∧
      s3.status = ResearchSessionStatus.REFINEMENTS_COMPLETE ∧
      s3.refinedPrompt = some (generateRefinedPrompt session.initialPrompt
        (setAnswerFirst questionIndex answer session.refinements)) ∧
      ∀ r ∈ (runResearch renv s3).trace, r.refinedPrompt =
        some (generateRefinedPrompt session.initialPrompt
          (setAnswerFirst questionIndex answer session.refinements)) := by
  rcases hfind : session.refinements.find?
      (fun r => r.questionIndex == questionIndex) with _ | r0
  · rw [hfind] at hfound
    simp at hfound
  · refine ⟨{ session with
        refinements := setAnswerFirst questionIndex answer session.refinements,
        status := ResearchSessionStatus.REFINEMENTS_COMPLETE },
      { session with
        refinements := setAnswerFirst questionIndex answer session.refinements,
        status := ResearchSessionStatus.REFINEMENTS_COMPLETE,
        refinedPrompt := some (generateRefinedPrompt session.initialPrompt
          (setAnswerFirst questionIndex answer session.refinements)) },
      ?_, rfl, hrp, rfl, rfl, ?_⟩
    · simp only [submitRefinementAnswer, hfind]
      simp [hall, hlen]
    · intro r hr
      rw [runResearch_refinedPrompt _ _ r hr]

/-- The amended C3 at the concrete one-question session. -/
theorem C3_refined_prompt_after_status_witness :
    ∃ s2 s3 : ResearchSessionData,
      (submitRefinementAnswer benignRunEnv sessionOneUnanswered 0 "A1").trace =
        [{ sessionOneUnanswered with
            refinements := setAnswerFirst 0 "A1" sessionOneUnanswered.refinements },
         s2, s3] ++ (runResearch benignRunEnv s3).trace ∧
      s2.status = ResearchSessionStatus.REFINEMENTS_COMPLETE ∧
      s2.refinedPrompt = none ∧
      s3.status = ResearchSessionStatus.REFINEMENTS_COMPLETE ∧
      s3.refinedPrompt = some (generateRefinedPrompt sessionOneUnanswered.initialPrompt
        (setAnswerFirst 0 "A1" sessionOneUnanswered.refinements)) ∧
      ∀ r ∈ (runResearch benignRunEnv s3).trace, r.refinedPrompt =
        some (generateRefinedPrompt sessionOneUnanswered.initialPrompt
          (setAnswerFirst 0 "A1" sessionOneUnanswered.refinements)) :=
  C3_refined_prompt_after_status benignRunEnv sessionOneUnanswered 0 "A1"
    rfl (by decide) (by decide) rfl
